import Mathlib

/-!
Verification of the ecotracker Home Assistant integration
(custom_components/ecotracker: config_flow.py and the sensor platform)
against its natural-language specification.

The source is embedded shallowly: the outcome of the single HTTP GET
that each function performs is made an explicit input (`FetchOutcome`),
Python exceptions become an inductive type (`PyExc`), and the
try/except control flow of each function is translated statement by
statement.  Python dicts are modelled as association lists with
first-match lookup (Python dict keys are unique, so first-match agrees
with dict semantics).
-/

/-- A JSON value appearing in the top-level response object.  Numbers are
modelled as rationals, which represent every JSON numeric literal exactly. -/
inductive JsonValue where
  | num (q : ℚ)
  | str (s : String)
  | bool (b : Bool)
  | null
deriving DecidableEq

/-- The parsed top-level JSON object of a response body. -/
abbrev JsonObj := List (String × JsonValue)

/-- First-match lookup in an association list; models Python dict access
and `dict.get` (returning `Option.none` for an absent key, as `.get`
returns `None`). -/
def lookupKey {α : Type} (k : String) : List (String × α) → Option α
  | [] => Option.none
  | (a, b) :: t => if k = a then some b else lookupKey k t

/-- The three required keys checked by both `validate_input` and
`EcotrackerCoordinator._async_update_data`. -/
def requiredKeys : List String := ["power", "energyCounterIn", "energyCounterOut"]

/-- Models `all(key in data for key in ["power", "energyCounterIn",
"energyCounterOut"])`. -/
def hasRequiredKeys (d : JsonObj) : Bool :=
  requiredKeys.all (fun k => (lookupKey k d).isSome)

/-- Outcome of attempting to parse the body of a 200 response via
`response.json()`: either a parsed object, or one of the two exception
classes aiohttp can raise there (`ContentTypeError`, which is an
`aiohttp.ClientError`, for a non-JSON content type; `JSONDecodeError`,
a `ValueError`, for an unparseable body). -/
inductive BodyResult where
  | jsonOk (obj : JsonObj)
  | contentTypeError (msg : String)
  | decodeError (msg : String)
deriving DecidableEq

/-- Outcome of the HTTP GET performed inside `async_timeout.timeout(10)`:
a transport-level `aiohttp.ClientError`, a timeout (`TimeoutError` raised
by `async_timeout`), a response with a status code and a body, or any
other unexpected exception. -/
inductive FetchOutcome where
  | clientError (msg : String)
  | timeout
  | response (status : ℕ) (body : BodyResult)
  | otherError (msg : String)
deriving DecidableEq

/-- The Python exceptions that flow through the two fetch functions.
`cannotConnect`, `invalidData` and `updateFailed` are the
`HomeAssistantError` subclasses raised by the source; `clientError` is
`aiohttp.ClientError`; `timeoutError` is the `TimeoutError` raised by
`async_timeout`; `valueError` covers JSON decode errors; `other` is any
remaining unexpected exception. -/
inductive PyExc where
  | cannotConnect (msg : String)
  | invalidData (msg : String)
  | updateFailed (msg : String)
  | clientError (msg : String)
  | timeoutError
  | valueError (msg : String)
  | other (msg : String)
deriving DecidableEq

/-- Which modelled exceptions are instances of `aiohttp.ClientError`
(the class matched by the first `except` clause of both functions).
The `HomeAssistantError` subclasses are not. -/
def PyExc.isClientError : PyExc → Bool
  | .clientError _ => true
  | _ => false

/-- Models Python `str(err)` for the modelled exceptions: the message the
exception was constructed with (`str(TimeoutError())` is the empty
string). -/
def PyExc.text : PyExc → String
  | .cannotConnect m => m
  | .invalidData m => m
  | .updateFailed m => m
  | .clientError m => m
  | .timeoutError => ""
  | .valueError m => m
  | .other m => m

/-- The body of the `try` statement in `validate_input` (config_flow.py
lines 42 to 51): checks the status, reads the body, checks the required
keys, raising `CannotConnect` for a non-200 status and `InvalidData` for
missing keys; exceptions of the GET and of `response.json()` propagate. -/
def validateTryBody (o : FetchOutcome) : Except PyExc Unit :=
  match o with
  | .clientError m => .error (.clientError m)
  | .timeout => .error .timeoutError
  | .otherError m => .error (.other m)
  | .response status body =>
      if status ≠ 200 then
        .error (.cannotConnect ("HTTP " ++ toString status))
      else
        match body with
        | .contentTypeError m => .error (.clientError m)
        | .decodeError m => .error (.valueError m)
        | .jsonOk obj =>
            if hasRequiredKeys obj then .ok ()
            else .error (.invalidData "Missing required keys in JSON response")

/-- `validate_input` (config_flow.py lines 33 to 58): runs the `try`
body, then applies its two `except` clauses in order.  An
`aiohttp.ClientError` is re-raised as
`CannotConnect("Connection error: " + str(err))`; every other exception
raised inside the `try` — including the `CannotConnect` and
`InvalidData` the body itself raises — is caught by the trailing
`except Exception` and re-raised as
`CannotConnect("Unexpected error: " + str(err))`.  On success it
returns the display title. -/
def validate_input (ip : String) (o : FetchOutcome) : Except PyExc String :=
  match validateTryBody o with
  | .ok _ => .ok ("Ecotracker (" ++ ip ++ ")")
  | .error e =>
      if e.isClientError then
        .error (.cannotConnect ("Connection error: " ++ e.text))
      else
        .error (.cannotConnect ("Unexpected error: " ++ e.text))

/-- Result of one submission of the setup form in
`ConfigFlow.async_step_user`: either an entry is created with the
validated title, or the form is shown again with the error dict
mapping "base" to a user-facing error code. -/
inductive FlowResult where
  | createEntry (title : String)
  | showFormWithError (code : String)
deriving DecidableEq

/-- The `except` chain of `async_step_user` (config_flow.py lines 73 to
81), mapping the exception escaping `validate_input` to the user-facing
error code stored under "base": `CannotConnect` to "cannot_connect",
`InvalidData` to "invalid_data", any other exception to "unknown". -/
def stepUserErrorCode : PyExc → String
  | .cannotConnect _ => "cannot_connect"
  | .invalidData _ => "invalid_data"
  | _ => "unknown"

/-- `ConfigFlow.async_step_user` with a submitted user input (config_flow.py
lines 66 to 87): calls `validate_input` and either creates the entry or
re-shows the form with the error code chosen by the `except` chain. -/
def async_step_user (ip : String) (o : FetchOutcome) : FlowResult :=
  match validate_input ip o with
  | .ok title => .createEntry title
  | .error e => .showFormWithError (stepUserErrorCode e)

/-- The body of the `try` statement in
`EcotrackerCoordinator._async_update_data` (sensor platform, lines 222
to 232): raises `UpdateFailed` for a non-200 status or missing required
keys, and returns the parsed data unchanged otherwise; exceptions of
the GET and of `response.json()` propagate. -/
def updateTryBody (o : FetchOutcome) : Except PyExc JsonObj :=
  match o with
  | .clientError m => .error (.clientError m)
  | .timeout => .error .timeoutError
  | .otherError m => .error (.other m)
  | .response status body =>
      if status ≠ 200 then
        .error (.updateFailed ("Error fetching data: HTTP " ++ toString status))
      else
        match body with
        | .contentTypeError m => .error (.clientError m)
        | .decodeError m => .error (.valueError m)
        | .jsonOk obj =>
            if hasRequiredKeys obj then .ok obj
            else .error (.updateFailed "Missing required keys in response")

/-- `EcotrackerCoordinator._async_update_data` (lines 220 to 236): runs
the `try` body, then applies its two `except` clauses in order.  An
`aiohttp.ClientError` becomes
`UpdateFailed("Error communicating with API: " + str(err))`; every
other exception raised inside the `try` — including the `UpdateFailed`
the body itself raises for a bad status or missing keys — is caught by
the trailing `except Exception` and re-raised as
`UpdateFailed("Unexpected error: " + str(err))`. -/
def async_update_data (o : FetchOutcome) : Except PyExc JsonObj :=
  match updateTryBody o with
  | .ok d => .ok d
  | .error e =>
      if e.isClientError then
        .error (.updateFailed ("Error communicating with API: " ++ e.text))
      else
        .error (.updateFailed ("Unexpected error: " ++ e.text))

/-- `EcotrackerPowerSensor.native_value`: `self.coordinator.data.get("power")`. -/
def powerNativeValue (d : JsonObj) : Option JsonValue := lookupKey "power" d

/-- `EcotrackerEnergyInSensor.native_value`:
`self.coordinator.data.get("energyCounterIn")`. -/
def energyInNativeValue (d : JsonObj) : Option JsonValue := lookupKey "energyCounterIn" d

/-- `EcotrackerEnergyOutSensor.native_value`:
`self.coordinator.data.get("energyCounterOut")`. -/
def energyOutNativeValue (d : JsonObj) : Option JsonValue := lookupKey "energyCounterOut" d

/-- `async_setup_entry` of the sensor platform (lines 175 to 197): it
awaits `coordinator.async_config_entry_first_refresh()` — which runs
`_async_update_data` once and, per the Home Assistant framework
contract, re-raises its failure to the caller — before constructing the
three sensor entities and calling `async_add_entities`.  The returned
list holds the unique ids of the entities that get added; a first-refresh
failure propagates out before any entity is created. -/
def async_setup_entry (entryId : String) (o : FetchOutcome) : Except PyExc (List String) :=
  match async_update_data o with
  | .error e => .error e
  | .ok _ => .ok [entryId ++ "_power", entryId ++ "_energy_in", entryId ++ "_energy_out"]

/-- Cached state of a running `DataUpdateCoordinator`: the last stored
data, and the last-update-success flag. -/
structure CoordState where
  data : Option JsonObj
  lastUpdateSuccess : Bool
deriving DecidableEq

/-- One steady-state poll tick: the Home Assistant
`DataUpdateCoordinator` base class catches the `UpdateFailed` raised by
`_async_update_data`, keeps the previously stored data and clears the
success flag; on success it stores the new data. -/
def coordinatorTick (s : CoordState) (o : FetchOutcome) : CoordState :=
  match async_update_data o with
  | .ok d => { data := some d, lastUpdateSuccess := true }
  | .error _ => { data := s.data, lastUpdateSuccess := false }

/-- Python values that can be submitted in a form field, for the
voluptuous schema model. -/
inductive PyValue where
  | int (i : ℤ)
  | float (q : ℚ)
  | str (s : String)
  | bool (b : Bool)
  | pyNone
deriving DecidableEq

/-- Python `int(float)` truncates toward zero. -/
def pyTruncOfRat (q : ℚ) : ℤ := if 0 ≤ q then ⌊q⌋ else ⌈q⌉

/-- Models Python `int(x)` as applied by `vol.Coerce(int)`: ints pass
through, bools are ints in Python, floats truncate toward zero, strings
parse as optionally-signed decimal integers (anything else raises, which
`vol.Coerce` turns into a validation failure), `None` fails. -/
def pyInt : PyValue → Option ℤ
  | .int i => some i
  | .bool b => some (if b then 1 else 0)
  | .float q => some (pyTruncOfRat q)
  | .str s => s.toInt?
  | .pyNone => Option.none

/-- The interval validator shared by the setup schema
(`STEP_USER_DATA_SCHEMA`, config_flow.py lines 23 to 30) and the options
schema (lines 118 to 124): `vol.All(vol.Coerce(int), vol.Range(min=1,
max=3600))`.  Returns the accepted integer, or `Option.none` when the
value is rejected. -/
def validateIntervalValue (v : PyValue) : Option ℤ :=
  match pyInt v with
  | Option.none => Option.none
  | some i => if 1 ≤ i ∧ i ≤ 3600 then some i else Option.none

/-- `DEFAULT_SCAN_INTERVAL` from the source. -/
def DEFAULT_SCAN_INTERVAL : ℤ := 5

/-- Application of the schema to the optional interval field: an absent
field is filled with the marker's default (which voluptuous then runs
through the same validators), a present field is validated directly. -/
def schemaIntervalField (field : Option PyValue) (dflt : ℤ) : Option ℤ :=
  validateIntervalValue (field.getD (.int dflt))

/-- Persisted configuration data of a config entry
(`config_entry.data`), a Python dict; keys used by the source are
"ip_address" and "scan_interval". -/
abbrev ConfigData := List (String × PyValue)

/-- Python dict update of one key: replace the value in place at the
first (in a dict: only) occurrence of the key, append the pair when the
key is absent.  Dict update keeps key order and uniqueness. -/
def dictInsert {α : Type} (d : List (String × α)) (k : String) (v : α) :
    List (String × α) :=
  match d with
  | [] => [(k, v)]
  | (a, b) :: t => if a = k then (k, v) :: t else (a, b) :: dictInsert t k v

/-- Python double-splat dict merge: the second dict's entries override
the first's. -/
def dictMerge {α : Type} (a b : List (String × α)) : List (String × α) :=
  b.foldl (fun acc p => dictInsert acc p.1 p.2) a

/-- `OptionsFlowHandler.async_step_init` with a submitted user input
(config_flow.py lines 102 to 112): persists the merge of the old entry
data with the validated user input.  The options schema has a single
field, `scan_interval`, so a schema-accepted submission is the
singleton dict carrying the accepted integer. -/
def options_step_init (old : ConfigData) (userInput : ConfigData) : ConfigData :=
  dictMerge old userInput

/-- The shape of any user input accepted by the options schema: its only
key is `scan_interval`, holding the integer the interval validator
accepted. -/
def optionsValidatedInput (v : ℤ) : ConfigData := [("scan_interval", .int v)]

/-! ## Helper lemmas -/

theorem lookupKey_dictInsert {α : Type} (d : List (String × α)) (k0 : String) (v : α)
    (k : String) :
    lookupKey k (dictInsert d k0 v) = if k = k0 then some v else lookupKey k d := by
  induction d with
  | nil =>
      by_cases h : k = k0 <;> simp [dictInsert, lookupKey, h]
  | cons p t ih =>
      obtain ⟨a, b⟩ := p
      by_cases hak : a = k0
      · subst hak
        by_cases hka : k = a <;> simp [dictInsert, lookupKey, hka]
      · by_cases hka : k = a
        · subst hka
          have hkk0 : ¬k = k0 := hak
          simp [dictInsert, lookupKey, hak, hkk0]
        · simp [dictInsert, lookupKey, hak, hka, ih]

/-- Inversion for a successful update cycle: `_async_update_data` only
returns data for a response with status 200 whose parsed body contains
the three required keys, and it returns that body unchanged. -/
theorem async_update_data_ok_inv (o : FetchOutcome) (d : JsonObj)
    (h : async_update_data o = .ok d) :
    o = .response 200 (.jsonOk d) ∧ hasRequiredKeys d = true := by
  cases o with
  | clientError m =>
      simp [async_update_data, updateTryBody, PyExc.isClientError] at h
  | timeout =>
      simp [async_update_data, updateTryBody, PyExc.isClientError] at h
  | otherError m =>
      simp [async_update_data, updateTryBody, PyExc.isClientError] at h
  | response st body =>
      by_cases hst : st = 200
      · subst hst
        cases body with
        | contentTypeError m =>
            simp [async_update_data, updateTryBody, PyExc.isClientError] at h
        | decodeError m =>
            simp [async_update_data, updateTryBody, PyExc.isClientError] at h
        | jsonOk obj =>
            by_cases hk : hasRequiredKeys obj
            · have hd : obj = d := by
                simpa [async_update_data, updateTryBody, hk] using h
              subst hd
              exact ⟨rfl, hk⟩
            · simp [async_update_data, updateTryBody, hk, PyExc.isClientError] at h
      · simp [async_update_data, updateTryBody, hst, PyExc.isClientError] at h

/-- A successful update cycle on a response body with the required keys
returns the parsed body unchanged. -/
theorem async_update_data_ok_of_keys (obj : JsonObj) (h : hasRequiredKeys obj = true) :
    async_update_data (.response 200 (.jsonOk obj)) = .ok obj := by
  simp [async_update_data, updateTryBody, h]

/-- Every error branch of `validate_input` produces a `CannotConnect`. -/
theorem validate_input_error_inv (ip : String) (o : FetchOutcome) (e : PyExc)
    (h : validate_input ip o = .error e) :
    ∃ m, e = .cannotConnect m := by
  unfold validate_input at h
  rcases hb : validateTryBody o with e0 | u
  · rw [hb] at h
    by_cases hc : e0.isClientError = true
    · simp only [hc, if_true] at h
      exact ⟨_, (Except.error.inj h).symm⟩
    · simp only [hc, if_false] at h
      exact ⟨_, (Except.error.inj h).symm⟩
  · rw [hb] at h
    simp at h

/-! ## Claim theorems -/

/-- Claim C1 (code-bug evidence): on the setup-validation input whose GET
returns status 200 with a JSON body missing two of the three required
keys, `validate_input` does not signal `InvalidData` to its caller: the
`InvalidData` it raises is caught by its own trailing broad `except`
clause and re-raised as `CannotConnect`, so the setup flow reports
"cannot_connect" rather than the claimed "invalid_data". -/
theorem c1_missing_keys_reported_as_cannot_connect :
    validate_input "192.168.1.2" (.response 200 (.jsonOk [("power", .num 10)])) =
      .error (.cannotConnect "Unexpected error: Missing required keys in JSON response") ∧
    async_step_user "192.168.1.2" (.response 200 (.jsonOk [("power", .num 10)])) =
      .showFormWithError "cannot_connect" := ⟨rfl, rfl⟩

/-- Claim C2 (code-bug evidence): the classified errors of a fetch cycle
are not kept distinct from the unexpected-exception branch.  The
`UpdateFailed` raised for a non-200 status, and the one raised for
missing keys, are each caught by the same function's trailing
`except Exception` and re-raised with the "Unexpected error: " wrapper;
moreover a genuinely unexpected exception with the right message
produces an update result identical to the non-200 case. -/
theorem c2_classified_errors_rewrapped_as_unexpected :
    async_update_data (.response 500 (.jsonOk [])) =
      .error (.updateFailed "Unexpected error: Error fetching data: HTTP 500") ∧
    async_update_data (.response 200 (.jsonOk [("power", .num 1)])) =
      .error (.updateFailed "Unexpected error: Missing required keys in response") ∧
    async_update_data (.otherError "Error fetching data: HTTP 500") =
      async_update_data (.response 500 (.jsonOk [])) := ⟨rfl, rfl, rfl⟩

/-- Claim C3 (counterexample): a 200 response whose JSON carries all
three required keys but a non-numeric "power" value does not produce a
MalformedBody-style error — the cycle succeeds and the non-numeric
value is stored as-is. -/
theorem c3_non_numeric_value_not_rejected :
    async_update_data (.response 200 (.jsonOk
      [("power", .str "abc"), ("energyCounterIn", .num 0), ("energyCounterOut", .num 0)])) =
      .ok [("power", .str "abc"), ("energyCounterIn", .num 0), ("energyCounterOut", .num 0)] :=
  rfl

/-- Claim C3 (amended): a fetch cycle whose response is status 200 with
valid JSON containing the three required keys succeeds regardless of
the types of the three values; no coercion to a numeric type is
performed and no error is produced for non-numeric values — the parsed
object is stored unchanged. -/
theorem c3_keys_present_succeed_without_coercion (obj : JsonObj)
    (h : hasRequiredKeys obj = true) :
    async_update_data (.response 200 (.jsonOk obj)) = .ok obj :=
  async_update_data_ok_of_keys obj h

/-- Witness for the amended claim C3 at a payload with a string, a
boolean and a null in the three required fields. -/
theorem c3_keys_present_succeed_without_coercion_witness :
    async_update_data (.response 200 (.jsonOk
      [("power", .str "not a number"), ("energyCounterIn", .bool true),
       ("energyCounterOut", JsonValue.null)])) =
      .ok [("power", .str "not a number"), ("energyCounterIn", .bool true),
       ("energyCounterOut", JsonValue.null)] :=
  c3_keys_present_succeed_without_coercion _ (by decide)

/-- Claim C4: a fetch cycle whose response is status 200 with a JSON
payload containing the three required numeric keys succeeds, the stored
data equals the payload unchanged, and each sensor's native value is
exactly the corresponding payload field. -/
theorem c4_success_stores_payload_exactly (obj : JsonObj) (qp qi qo : ℚ)
    (hp : lookupKey "power" obj = some (.num qp))
    (hin : lookupKey "energyCounterIn" obj = some (.num qi))
    (hout : lookupKey "energyCounterOut" obj = some (.num qo)) :
    async_update_data (.response 200 (.jsonOk obj)) = .ok obj ∧
    powerNativeValue obj = some (.num qp) ∧
    energyInNativeValue obj = some (.num qi) ∧
    energyOutNativeValue obj = some (.num qo) := by
  have hk : hasRequiredKeys obj = true := by
    simp [hasRequiredKeys, requiredKeys, hp, hin, hout]
  exact ⟨async_update_data_ok_of_keys obj hk, hp, hin, hout⟩

/-- Witness for claim C4 at the spec's scenario payload: power 1234.5,
energyCounterIn 100.2, energyCounterOut 3.1. -/
theorem c4_success_stores_payload_exactly_witness :
    async_update_data (.response 200 (.jsonOk
      [("power", .num (2469/2)), ("energyCounterIn", .num (501/5)),
       ("energyCounterOut", .num (31/10))])) =
      .ok [("power", .num (2469/2)), ("energyCounterIn", .num (501/5)),
       ("energyCounterOut", .num (31/10))] ∧
    powerNativeValue [("power", .num (2469/2)), ("energyCounterIn", .num (501/5)),
       ("energyCounterOut", .num (31/10))] = some (.num (2469/2)) ∧
    energyInNativeValue [("power", .num (2469/2)), ("energyCounterIn", .num (501/5)),
       ("energyCounterOut", .num (31/10))] = some (.num (501/5)) ∧
    energyOutNativeValue [("power", .num (2469/2)), ("energyCounterIn", .num (501/5)),
       ("energyCounterOut", .num (31/10))] = some (.num (31/10)) :=
  c4_success_stores_payload_exactly _ (2469/2) (501/5) (31/10) rfl rfl rfl

/-- Claim C5: if the forced first fetch performed during
`async_setup_entry` fails, the error propagates out of setup and no
sensor entity is added (the entity list is never produced), while the
same failure during steady-state polling is absorbed into the cached
coordinator state, keeping the previous data and clearing the success
flag. -/
theorem c5_first_refresh_failure_propagates (entryId : String) (o : FetchOutcome)
    (e : PyExc) (s : CoordState)
    (h : async_update_data o = .error e) :
    async_setup_entry entryId o = .error e ∧
    coordinatorTick s o = { data := s.data, lastUpdateSuccess := false } := by
  unfold async_setup_entry coordinatorTick
  rw [h]
  exact ⟨rfl, rfl⟩

/-- Witness for claim C5 at a connection-reset first fetch. -/
theorem c5_first_refresh_failure_propagates_witness :
    async_setup_entry "entry1" (.clientError "Connection reset") =
      .error (.updateFailed "Error communicating with API: Connection reset") ∧
    coordinatorTick ⟨some [("power", .num 7)], true⟩ (.clientError "Connection reset") =
      ⟨some [("power", .num 7)], false⟩ :=
  c5_first_refresh_failure_propagates "entry1" _ _ _ rfl

/-- Claim C6: every setup-validation input whose GET suffers a transport
or connection failure (an `aiohttp.ClientError` or a timeout) or
returns a non-200 status makes `validate_input` signal `CannotConnect`,
and the setup flow then reports "cannot_connect". -/
theorem c6_connect_failures_report_cannot_connect (ip : String) (o : FetchOutcome)
    (h : (∃ m, o = .clientError m) ∨ o = .timeout ∨
         ∃ st body, o = .response st body ∧ st ≠ 200) :
    (∃ m, validate_input ip o = .error (.cannotConnect m)) ∧
    async_step_user ip o = .showFormWithError "cannot_connect" := by
  rcases h with ⟨m, rfl⟩ | rfl | ⟨st, body, rfl, hst⟩
  · exact ⟨⟨_, rfl⟩, rfl⟩
  · exact ⟨⟨_, rfl⟩, rfl⟩
  · have hv : validateTryBody (.response st body) =
        .error (.cannotConnect ("HTTP " ++ toString st)) := by
      simp [validateTryBody, hst]
    have hv2 : validate_input ip (.response st body) =
        .error (.cannotConnect ("Unexpected error: " ++ ("HTTP " ++ toString st))) := by
      unfold validate_input
      rw [hv]
      rfl
    refine ⟨⟨_, hv2⟩, ?_⟩
    unfold async_step_user
    rw [hv2]
    rfl

/-- Witness for claim C6 at the spec's scenario: the endpoint returns
status 500. -/
theorem c6_connect_failures_report_cannot_connect_witness :
    (∃ m, validate_input "10.0.0.9" (.response 500 (.jsonOk [])) =
      .error (.cannotConnect m)) ∧
    async_step_user "10.0.0.9" (.response 500 (.jsonOk [])) =
      .showFormWithError "cannot_connect" :=
  c6_connect_failures_report_cannot_connect "10.0.0.9" _
    (Or.inr (Or.inr ⟨500, _, rfl, by decide⟩))

/-- Claim C7: a submission accepted by the options form's schema can
change only the scan interval in the persisted configuration: the merge
of the old entry data with the validated input holds the submitted
interval under "scan_interval" and is unchanged at every other key, in
particular at "ip_address". -/
theorem c7_options_change_only_interval (old : ConfigData) (v : ℤ) (k : String)
    (hk : k ≠ "scan_interval") :
    lookupKey "scan_interval" (options_step_init old (optionsValidatedInput v)) =
      some (.int v) ∧
    lookupKey k (options_step_init old (optionsValidatedInput v)) = lookupKey k old := by
  have hm : options_step_init old (optionsValidatedInput v) =
      dictInsert old "scan_interval" (.int v) := rfl
  constructor
  · rw [hm, lookupKey_dictInsert]
    simp
  · rw [hm, lookupKey_dictInsert]
    simp [hk]

/-- Witness for claim C7: editing the interval to 30 on an entry whose
data holds address 10.0.0.5 and interval 5 changes the interval and
leaves the address untouched. -/
theorem c7_options_change_only_interval_witness :
    lookupKey "scan_interval" (options_step_init
      [("ip_address", PyValue.str "10.0.0.5"), ("scan_interval", PyValue.int 5)]
      (optionsValidatedInput 30)) = some (PyValue.int 30) ∧
    lookupKey "ip_address" (options_step_init
      [("ip_address", PyValue.str "10.0.0.5"), ("scan_interval", PyValue.int 5)]
      (optionsValidatedInput 30)) =
      lookupKey "ip_address"
        [("ip_address", PyValue.str "10.0.0.5"), ("scan_interval", PyValue.int 5)] :=
  c7_options_change_only_interval _ 30 "ip_address" (by decide)

/-- Claim C8: every value the interval field of the setup or options
schema accepts (after the coercion to int that the schema applies) is
an integer between 1 and 3600 inclusive; values that do not coerce, or
fall outside the range, are rejected. -/
theorem c8_accepted_interval_in_range (field : Option PyValue) (dflt : ℤ) (i : ℤ)
    (h : schemaIntervalField field dflt = some i) :
    1 ≤ i ∧ i ≤ 3600 := by
  unfold schemaIntervalField validateIntervalValue at h
  split at h
  · exact absurd h (by simp)
  · split at h
    · rename_i j hj hr
      obtain rfl := Option.some.inj h
      exact hr
    · exact absurd h (by simp)

/-- Witness for claim C8: a submitted value of 30 passes the coercion
and the range validator. -/
theorem c8_accepted_interval_in_range_witness : 1 ≤ (30 : ℤ) ∧ (30 : ℤ) ≤ 3600 :=
  c8_accepted_interval_in_range (some (PyValue.int 30)) DEFAULT_SCAN_INTERVAL 30
    (by decide)

/-- Claim C9 (implicit): every exception escaping `validate_input` is a
`CannotConnect` — the trailing broad `except` clause re-raises
everything else, including the `InvalidData` raised for missing keys —
so the setup flow's "invalid_data" and "unknown" branches are
unreachable for every fetch outcome. -/
theorem c9_all_validation_errors_are_cannot_connect (ip : String) (o : FetchOutcome) :
    ((∃ t, validate_input ip o = .ok t) ∨
      (∃ m, validate_input ip o = .error (.cannotConnect m))) ∧
    async_step_user ip o ≠ .showFormWithError "invalid_data" ∧
    async_step_user ip o ≠ .showFormWithError "unknown" := by
  rcases hv : validate_input ip o with e | t
  · obtain ⟨m, rfl⟩ := validate_input_error_inv ip o e hv
    refine ⟨Or.inr ⟨m, rfl⟩, ?_, ?_⟩ <;>
      · unfold async_step_user
        rw [hv]
        simp [stepUserErrorCode]
  · refine ⟨Or.inl ⟨t, rfl⟩, ?_, ?_⟩ <;>
      · unfold async_step_user
        rw [hv]
        simp

/-- Claim C10 (implicit): data returned non-exceptionally by the
coordinator's update function contains all three required keys, so each
sensor's native-value projection from a freshly stored successful
result is never the absent-key case. -/
theorem c10_success_data_feeds_all_sensors (o : FetchOutcome) (d : JsonObj)
    (h : async_update_data o = .ok d) :
    (powerNativeValue d).isSome = true ∧
    (energyInNativeValue d).isSome = true ∧
    (energyOutNativeValue d).isSome = true := by
  obtain ⟨-, hk⟩ := async_update_data_ok_inv o d h
  simpa [powerNativeValue, energyInNativeValue, energyOutNativeValue,
    hasRequiredKeys, requiredKeys] using hk

/-- Witness for claim C10 at a concrete successful cycle. -/
theorem c10_success_data_feeds_all_sensors_witness :
    (powerNativeValue [("power", JsonValue.num 5), ("energyCounterIn", JsonValue.num 6),
      ("energyCounterOut", JsonValue.num 7)]).isSome = true ∧
    (energyInNativeValue [("power", JsonValue.num 5), ("energyCounterIn", JsonValue.num 6),
      ("energyCounterOut", JsonValue.num 7)]).isSome = true ∧
    (energyOutNativeValue [("power", JsonValue.num 5), ("energyCounterIn", JsonValue.num 6),
      ("energyCounterOut", JsonValue.num 7)]).isSome = true :=
  c10_success_data_feeds_all_sensors
    (.response 200 (.jsonOk [("power", JsonValue.num 5), ("energyCounterIn", JsonValue.num 6),
      ("energyCounterOut", JsonValue.num 7)]))
    [("power", JsonValue.num 5), ("energyCounterIn", JsonValue.num 6),
      ("energyCounterOut", JsonValue.num 7)] rfl
